import Mathlib

/-!
Shallow embedding of the Azle canister in
`src/unnamed/part_000` (Election Campaign Manager).

Modelling conventions, each justified by the execution platform:

* Each `StableBTreeMap` is modelled as an association list
  `List (String × V)`; `get` is the first binding of the key, `insert`
  replaces an existing binding or appends a fresh one, `values` lists the
  stored values.
* `uuidv4()` results and `new Date().toISOString()` results are
  nondeterministic inputs, so every operation takes the identifiers it
  generates and the current time as explicit parameters.  On the Internet
  Computer the system time is constant within a single message execution,
  so all `new Date()` calls inside one exported method receive the same
  `now` string.
* Azle's `StableBTreeMap.get` returns a Candid `Opt` value: a JS object
  of shape `{Some: v}` or `{None: null}`.  It is never the JS value
  `null`, and, being an object, it is always truthy.  The source
  sometimes tests `opt === null` or `!opt`; those tests are constantly
  false and are encoded by the helpers `optIsJsNull` / `optIsJsFalsy`.
* A Candid variant value (for example a `UserRole`) is a JS object
  `{Tag: null}` holding exactly its active tag.  Consequences encoded
  below: `"Tag" in role` is true exactly when the tag is active;
  `role.Tag !== null` is FALSE when the tag is active (the field is
  `null`) and TRUE when it is absent (the field is `undefined`); and a
  variant value itself is always truthy.
* A JS exception (such as the `TypeError` raised by reading a property
  of `undefined`) traps the canister message; this is the `Trap` result.
-/

/-- Role variant from the source (`Admin | CampaignManager | Donor`). -/
inductive UserRole where
  | Admin : UserRole
  | CampaignManager : UserRole
  | Donor : UserRole
deriving DecidableEq, Repr

/-- Campaign record type from the source. -/
structure Campaign where
  id : String
  name : String
  description : String
  created_by : String
  created_at : String
  updated_at : String
deriving DecidableEq, Repr

/-- Donation record type from the source (`amount : nat64` as `Nat`). -/
structure Donation where
  id : String
  campaign_id : String
  donor_name : String
  amount : Nat
  created_at : String
deriving DecidableEq, Repr

/-- Expense record type from the source. -/
structure Expense where
  id : String
  campaign_id : String
  description : String
  amount : Nat
  created_at : String
deriving DecidableEq, Repr

/-- VoterOutreach record type from the source. -/
structure VoterOutreach where
  id : String
  campaign_id : String
  activity : String
  date : String
  status : String
  created_at : String
deriving DecidableEq, Repr

/-- SecureMessage record type from the source. -/
structure SecureMessage where
  id : String
  campaign_id : String
  sender : String
  content : String
  created_at : String
deriving DecidableEq, Repr

/-- Notification record type from the source. -/
structure Notification where
  id : String
  campaign_id : String
  message : String
  created_at : String
deriving DecidableEq, Repr

/-- User record type from the source; the `owner : Principal` field is
modelled as its textual form. -/
structure User where
  id : String
  owner : String
  username : String
  role : UserRole
  points : Nat
  created_at : String
deriving DecidableEq, Repr

/-- CampaignPayload from the source. -/
structure CampaignPayload where
  name : String
  description : String
  created_by : String
deriving DecidableEq, Repr

/-- DonationPayload from the source. -/
structure DonationPayload where
  campaign_id : String
  donor_name : String
  amount : Nat
deriving DecidableEq, Repr

/-- ExpensePayload from the source. -/
structure ExpensePayload where
  campaign_id : String
  description : String
  amount : Nat
deriving DecidableEq, Repr

/-- VoterOutreachPayload from the source. -/
structure VoterOutreachPayload where
  campaign_id : String
  activity : String
  date : String
  status : String
deriving DecidableEq, Repr

/-- MessagePayload from the source. -/
structure MessagePayload where
  campaign_id : String
  sender : String
  content : String
deriving DecidableEq, Repr

/-- UserPayload from the source. -/
structure UserPayload where
  username : String
  role : UserRole
deriving DecidableEq, Repr

/-- Error variant from the source: four tags, each carrying a message. -/
inductive CanisterError where
  | NotFound : String → CanisterError
  | InvalidPayload : String → CanisterError
  | Unauthorized : String → CanisterError
  | ValidationError : String → CanisterError
deriving DecidableEq, Repr

/-- Outcome of executing one exported method: a Candid `Ok`, a Candid
`Err` with one of the four tags, or a trap (uncaught JS exception). -/
inductive ExecResult (α : Type) where
  | Ok : α → ExecResult α
  | Err : CanisterError → ExecResult α
  | Trap : ExecResult α
deriving DecidableEq, Repr

/-- Association-list lookup: first binding of the key, as
`StableBTreeMap.get` (returning `none` for the Candid `None`). -/
def mapGet (m : List (String × α)) (k : String) : Option α :=
  (m.find? (fun kv => kv.1 == k)).map (fun kv => kv.2)

/-- Association-list insert, as `StableBTreeMap.insert`: replaces the
binding when the key is present, appends otherwise. -/
def mapInsert (m : List (String × α)) (k : String) (v : α) : List (String × α) :=
  match mapGet m k with
  | some _ => m.map (fun kv => if kv.1 == k then (k, v) else kv)
  | none => m ++ [(k, v)]

/-- Values of the map, as `StableBTreeMap.values()`. -/
def mapValues (m : List (String × α)) : List α :=
  m.map (fun kv => kv.2)

/-- The seven stable maps of the canister. -/
structure Stores where
  campaignStorage : List (String × Campaign)
  donationStorage : List (String × Donation)
  expenseStorage : List (String × Expense)
  outreachStorage : List (String × VoterOutreach)
  messageStorage : List (String × SecureMessage)
  notificationStorage : List (String × Notification)
  userStorage : List (String × User)
deriving DecidableEq, Repr

/-- The canister's state right after deployment: every map empty. -/
def emptyStores : Stores :=
  ⟨[], [], [], [], [], [], []⟩

/-- JS test `opt === null` applied to an Azle `Opt` value: an `Opt` is
always an object (`{Some: v}` or `{None: null}`), never the value
`null`, so the test is constantly false. -/
def optIsJsNull (_ : Option α) : Bool := false

/-- JS truthiness test `!opt` applied to an Azle `Opt` value: an object
is always truthy, so `!opt` is constantly false. -/
def optIsJsFalsy (_ : Option α) : Bool := false

/-- JS truthiness test `!payload.role` applied to a Candid variant
value: a variant is an object `{Tag: null}`, always truthy, so the test
is constantly false. -/
def jsVariantFalsy (_ : UserRole) : Bool := false

/-- JS `"Admin" in role` on a `UserRole` variant value: the key is
present exactly when the active tag is `Admin`. -/
def roleHasAdminKey : UserRole → Bool
  | .Admin => true
  | _ => false

/-- JS `"CampaignManager" in role` on a `UserRole` variant value. -/
def roleHasCampaignManagerKey : UserRole → Bool
  | .CampaignManager => true
  | _ => false

/-- JS `"Donor" in role` on a `UserRole` variant value. -/
def roleHasDonorKey : UserRole → Bool
  | .Donor => true
  | _ => false

/-- JS `role.Admin !== null` on a `UserRole` variant value: when the
active tag is `Admin` the field holds `null`, so the comparison is
false; for any other tag the field is `undefined`, so it is true. -/
def jsAdminFieldNotNull : UserRole → Bool
  | .Admin => false
  | _ => true

/-- JS `role.CampaignManager !== null` on a `UserRole` variant value:
false exactly when the active tag is `CampaignManager`. -/
def jsCampaignManagerFieldNotNull : UserRole → Bool
  | .CampaignManager => false
  | _ => true

/-- Helper `notifyParticipants(campaignId, message)` from the source:
unconditionally inserts a fresh Notification (the JS object's stray
`updated_at` property is not part of the declared `Notification` record
type and is not stored). -/
def notifyParticipants (st : Stores) (notifId campaignId message now : String) : Stores :=
  let notification : Notification :=
    { id := notifId, campaign_id := campaignId, message := message, created_at := now }
  { st with notificationStorage := mapInsert st.notificationStorage notifId notification }

/-- Method `createUser(payload)` from the source.  The guard
`!payload.role || !payload.role` tests the truthiness of a Candid
variant value, which is always an object and hence truthy, so the
`InvalidPayload` branch is encoded by the constant-false
`jsVariantFalsy`.  `caller` is `ic.caller()` in textual form, `newId`
the `uuidv4()` result, `now` the timestamp. -/
def createUser (st : Stores) (payload : UserPayload) (caller newId now : String) :
    ExecResult User × Stores :=
  if jsVariantFalsy payload.role || jsVariantFalsy payload.role then
    (.Err (.InvalidPayload " Ensure all required fields are provided!"), st)
  else
    match (mapValues st.userStorage).find? (fun u => u.username == payload.username) with
    | some _ =>
        (.Err (.ValidationError "Username already exists 😲 🤯 😮 😱 😳 ✨, try another one"), st)
    | none =>
        let user : User :=
          { id := newId, owner := caller, username := payload.username,
            role := payload.role, points := 0, created_at := now }
        (.Ok user, { st with userStorage := mapInsert st.userStorage newId user })

/-- Query `getUsersByRole(role)` from the source, with JS semantics of
`role.Admin !== null` / `role.CampaignManager !== null` made explicit
through `jsAdminFieldNotNull` / `jsCampaignManagerFieldNotNull`. -/
def getUsersByRole (st : Stores) (role : UserRole) : ExecResult (List User) :=
  let users := (mapValues st.userStorage).filter (fun u =>
    if jsAdminFieldNotNull role then jsAdminFieldNotNull u.role
    else if jsCampaignManagerFieldNotNull role then jsCampaignManagerFieldNotNull u.role
    else false)
  if users.length = 0 then .Err (.NotFound "No users found with the specified role")
  else .Ok users

/-- Method `createCampaign(payload)` from the source.  The user lookup
is guarded by `userOpt === null`, which is constantly false for an Azle
`Opt` (`optIsJsNull`); the code then evaluates
`"Admin" in userOpt.Some.role`, and when the `Opt` is `{None: null}`
the property `userOpt.Some` is `undefined`, so reading `.role` raises a
`TypeError` and the message traps. -/
def createCampaign (st : Stores) (payload : CampaignPayload) (newId notifId now : String) :
    ExecResult Campaign × Stores :=
  if payload.name == "" || payload.description == "" then
    (.Err (.InvalidPayload "Ensure 'name' and 'description' are provided"), st)
  else
    let userOpt := mapGet st.userStorage payload.created_by
    if optIsJsNull userOpt then
      (.Err (.NotFound ("User with ID " ++ payload.created_by ++ " not found")), st)
    else
      match userOpt with
      | none => (.Trap, st)
      | some user =>
        if !(roleHasAdminKey user.role || roleHasCampaignManagerKey user.role) then
          (.Err (.Unauthorized "Only Admins and Campaign Managers can create campaigns"), st)
        else
          let campaign : Campaign :=
            { id := newId, name := payload.name, description := payload.description,
              created_by := payload.created_by, created_at := now, updated_at := now }
          let st1 := { st with campaignStorage := mapInsert st.campaignStorage newId campaign }
          (.Ok campaign, notifyParticipants st1 notifId newId "New campaign created." now)

/-- Method `updateCampaign(campaignId, payload)` from the source: both
lookups use the correct `"None" in opt` test, so they are honest
`Option` matches. -/
def updateCampaign (st : Stores) (campaignId : String) (payload : CampaignPayload)
    (notifId now : String) : ExecResult Campaign × Stores :=
  match mapGet st.campaignStorage campaignId with
  | none => (.Err (.NotFound ("Campaign with ID " ++ campaignId ++ " not found")), st)
  | some existingCampaign =>
    if payload.name == "" || payload.description == "" then
      (.Err (.InvalidPayload "Ensure 'name' and 'description' are provided"), st)
    else
      match mapGet st.userStorage payload.created_by with
      | none => (.Err (.NotFound ("User with ID " ++ payload.created_by ++ " not found")), st)
      | some user =>
        if !(roleHasAdminKey user.role || roleHasCampaignManagerKey user.role) then
          (.Err (.Unauthorized "Only Admins and Campaign Managers can update campaigns"), st)
        else
          let updatedCampaign : Campaign :=
            { existingCampaign with
                name := payload.name, description := payload.description,
                created_by := payload.created_by, updated_at := now }
          let st1 := { st with campaignStorage := mapInsert st.campaignStorage campaignId updatedCampaign }
          (.Ok updatedCampaign, notifyParticipants st1 notifId campaignId "Campaign updated." now)

/-- Query `getCampaignById(campaignId)` from the source. -/
def getCampaignById (st : Stores) (campaignId : String) : ExecResult Campaign :=
  match mapGet st.campaignStorage campaignId with
  | none => .Err (.NotFound ("Campaign with ID " ++ campaignId ++ " not found"))
  | some campaign => .Ok campaign

/-- Method `createDonation(payload, userPayload)` from the source. -/
def createDonation (st : Stores) (payload : DonationPayload) (userPayload : UserPayload)
    (newId notifId now : String) : ExecResult Donation × Stores :=
  match (mapValues st.userStorage).find? (fun u => u.username == userPayload.username) with
  | none => (.Err (.Unauthorized "User not found"), st)
  | some user =>
    if !(roleHasDonorKey user.role) then
      (.Err (.Unauthorized "Only donors can create donations"), st)
    else if payload.donor_name == "" || payload.amount ≤ 0 then
      (.Err (.InvalidPayload "Ensure donor name and valid amount are provided"), st)
    else
      match mapGet st.campaignStorage payload.campaign_id with
      | none => (.Err (.NotFound "Campaign not found"), st)
      | some _ =>
        let donation : Donation :=
          { id := newId, campaign_id := payload.campaign_id,
            donor_name := payload.donor_name, amount := payload.amount, created_at := now }
        let st1 := { st with donationStorage := mapInsert st.donationStorage newId donation }
        (.Ok donation,
          notifyParticipants st1 notifId donation.campaign_id "New donation received." now)

/-- Method `createExpense(payload, userPayload)` from the source.  The
campaign-existence guard is `if (!campaign)` applied to the Azle `Opt`
returned by `get`, an always-truthy object, so the `NotFound` branch is
encoded by the constant-false `optIsJsFalsy`. -/
def createExpense (st : Stores) (payload : ExpensePayload) (userPayload : UserPayload)
    (newId notifId now : String) : ExecResult Expense × Stores :=
  match (mapValues st.userStorage).find? (fun u => u.username == userPayload.username) with
  | none => (.Err (.Unauthorized "User not found"), st)
  | some user =>
    if !(roleHasAdminKey user.role) then
      (.Err (.Unauthorized "Only admins can create expenses"), st)
    else if payload.description == "" || payload.amount ≤ 0 then
      (.Err (.InvalidPayload "Ensure description and valid amount are provided"), st)
    else if optIsJsFalsy (mapGet st.campaignStorage payload.campaign_id) then
      (.Err (.NotFound "Campaign not found"), st)
    else
      let expense : Expense :=
        { id := newId, campaign_id := payload.campaign_id,
          description := payload.description, amount := payload.amount, created_at := now }
      let st1 := { st with expenseStorage := mapInsert st.expenseStorage newId expense }
      (.Ok expense, notifyParticipants st1 notifId expense.campaign_id "New expense recorded." now)

/-- Method `createVoterOutreach(payload, userPayload)` from the source.
The campaign-existence guard is the same always-false `if (!campaign)`
test as in `createExpense`. -/
def createVoterOutreach (st : Stores) (payload : VoterOutreachPayload)
    (userPayload : UserPayload) (newId notifId now : String) :
    ExecResult VoterOutreach × Stores :=
  match (mapValues st.userStorage).find? (fun u => u.username == userPayload.username) with
  | none => (.Err (.Unauthorized "Invalid credentials"), st)
  | some _ =>
    if payload.activity == "" || payload.date == "" || payload.status == "" then
      (.Err (.InvalidPayload "Ensure activity, date and status are provided"), st)
    else if optIsJsFalsy (mapGet st.campaignStorage payload.campaign_id) then
      (.Err (.NotFound "Campaign not found"), st)
    else
      let outreach : VoterOutreach :=
        { id := newId, campaign_id := payload.campaign_id, activity := payload.activity,
          date := payload.date, status := payload.status, created_at := now }
      let st1 := { st with outreachStorage := mapInsert st.outreachStorage newId outreach }
      (.Ok outreach,
        notifyParticipants st1 notifId outreach.campaign_id "New voter outreach recorded." now)

/-- Method `createMessage(payload, userPayload)` from the source: the
sender and campaign lookups use the correct `"None" in opt` test. -/
def createMessage (st : Stores) (payload : MessagePayload) (userPayload : UserPayload)
    (newId notifId now : String) : ExecResult SecureMessage × Stores :=
  match (mapValues st.userStorage).find? (fun u => u.username == userPayload.username) with
  | none => (.Err (.Unauthorized "Invalid credentials"), st)
  | some _ =>
    if payload.sender == "" || payload.content == "" then
      (.Err (.InvalidPayload "Ensure sender and content are provided"), st)
    else
      match mapGet st.userStorage payload.sender with
      | none => (.Err (.NotFound ("Sender with ID " ++ payload.sender ++ " not found")), st)
      | some _ =>
        match mapGet st.campaignStorage payload.campaign_id with
        | none => (.Err (.NotFound "Campaign not found"), st)
        | some _ =>
          let message : SecureMessage :=
            { id := newId, campaign_id := payload.campaign_id, sender := payload.sender,
              content := payload.content, created_at := now }
          let st1 := { st with messageStorage := mapInsert st.messageStorage newId message }
          (.Ok message, notifyParticipants st1 notifId message.campaign_id "New message sent." now)

/-- Query `getNotificationsByCampaignId(campaignId)` from the source. -/
def getNotificationsByCampaignId (st : Stores) (campaignId : String) :
    ExecResult (List Notification) :=
  let notifications := (mapValues st.notificationStorage).filter
    (fun n => n.campaign_id == campaignId)
  if notifications.length = 0 then
    .Err (.NotFound "No notifications found for this campaign")
  else .Ok notifications

/-- Number of stored notifications attached to a given campaign. -/
def notificationCountFor (st : Stores) (campaignId : String) : Nat :=
  ((mapValues st.notificationStorage).filter (fun n => n.campaign_id == campaignId)).length

/-- Number of stored users carrying a given username. -/
def usernameCount (st : Stores) (name : String) : Nat :=
  ((mapValues st.userStorage).filter (fun u => u.username == name)).length

/-- Recogniser for the `Unauthorized` error tag of a result. -/
def isUnauthorizedResult : ExecResult α → Bool
  | .Err (.Unauthorized _) => true
  | _ => false

/-- Sample Admin user used for concrete evaluations. -/
def adminAlice : User :=
  { id := "u1", owner := "p1", username := "alice", role := .Admin,
    points := 0, created_at := "t0" }

/-- Sample Donor user used for concrete evaluations. -/
def donorDora : User :=
  { id := "u2", owner := "p2", username := "dora", role := .Donor,
    points := 0, created_at := "t0" }

/-- Sample CampaignManager user used for concrete evaluations. -/
def managerMia : User :=
  { id := "u3", owner := "p3", username := "mia", role := .CampaignManager,
    points := 0, created_at := "t0" }

/-- Sample stored campaign used for concrete evaluations. -/
def campaignC1 : Campaign :=
  { id := "c1", name := "Primary", description := "desc", created_by := "u1",
    created_at := "t0", updated_at := "t0" }

/-- Sample reachable state: three users (one per role) and one campaign,
as produced by three `createUser` calls and one `createCampaign` call. -/
def sampleStores : Stores :=
  { emptyStores with
      userStorage := [("u1", adminAlice), ("u2", donorDora), ("u3", managerMia)],
      campaignStorage := [("c1", campaignC1)] }

theorem mapGet_cons (a : String × α) (m : List (String × α)) (k : String) :
    mapGet (a :: m) k = if a.1 == k then some a.2 else mapGet m k := by
  cases h : a.1 == k <;> simp [mapGet, List.find?, h]

theorem mapGet_single (k k' : String) (v : α) :
    mapGet [(k, v)] k' = if k == k' then some v else none := by
  cases h : k == k' <;> simp [mapGet, List.find?, h]

theorem mapGet_append (m m2 : List (String × α)) (k : String) :
    mapGet (m ++ m2) k = (mapGet m k).or (mapGet m2 k) := by
  unfold mapGet
  rw [List.find?_append]
  cases m.find? (fun kv => kv.1 == k) <;> simp

theorem mapGet_map_replace (m : List (String × α)) (k : String) (v : α) :
    mapGet (m.map fun kv => if kv.1 == k then (k, v) else kv) k =
      (mapGet m k).map fun _ => v := by
  induction m with
  | nil => simp [mapGet]
  | cons a t ih =>
    by_cases hak : a.1 = k
    · simp [mapGet_cons, hak]
    · simp [mapGet_cons, hak] at ih ⊢
      exact ih

theorem mapGet_map_replace_ne (m : List (String × α)) (k k' : String) (v : α)
    (h : k' ≠ k) :
    mapGet (m.map fun kv => if kv.1 == k then (k, v) else kv) k' = mapGet m k' := by
  induction m with
  | nil => rfl
  | cons a t ih =>
    by_cases hak : a.1 = k
    · simp [mapGet_cons, hak, Ne.symm h] at ih ⊢
      exact ih
    · simp [mapGet_cons, hak] at ih ⊢
      rw [ih]

theorem mapGet_mapInsert_self (m : List (String × α)) (k : String) (v : α) :
    mapGet (mapInsert m k v) k = some v := by
  unfold mapInsert
  cases hget : mapGet m k with
  | none =>
    rw [mapGet_append, hget, mapGet_single]
    simp
  | some w =>
    rw [mapGet_map_replace, hget]
    rfl

theorem mapGet_mapInsert_ne (m : List (String × α)) (k k' : String) (v : α)
    (h : k' ≠ k) :
    mapGet (mapInsert m k v) k' = mapGet m k' := by
  unfold mapInsert
  cases hget : mapGet m k with
  | none =>
    rw [mapGet_append, mapGet_single]
    simp [Ne.symm h]
  | some w => exact mapGet_map_replace_ne m k k' v h

theorem mapValues_mapInsert_of_none (m : List (String × α)) (k : String) (v : α)
    (h : mapGet m k = none) :
    mapValues (mapInsert m k v) = mapValues m ++ [v] := by
  unfold mapInsert
  rw [h]
  simp [mapValues]

theorem filter_eq_nil_of_find?_eq_none (l : List α) (p : α → Bool)
    (h : l.find? p = none) : l.filter p = [] := by
  rw [List.filter_eq_nil_iff]
  exact List.find?_eq_none.mp h

theorem find?_append_singleton (l : List α) (p : α → Bool) (u : α)
    (h : l.find? p = none) (hu : p u = true) : (l ++ [u]).find? p = some u := by
  rw [List.find?_append, h]
  simp [List.find?, hu]

theorem notifyParticipants_campaignStorage (st : Stores) (nid cid msg now : String) :
    (notifyParticipants st nid cid msg now).campaignStorage = st.campaignStorage := rfl

theorem notifyParticipants_userStorage (st : Stores) (nid cid msg now : String) :
    (notifyParticipants st nid cid msg now).userStorage = st.userStorage := rfl

theorem notifyParticipants_messageStorage (st : Stores) (nid cid msg now : String) :
    (notifyParticipants st nid cid msg now).messageStorage = st.messageStorage := rfl

/-- State holding a single Donor-role user, reachable by one `createUser`
call. -/
def donorOnlyStores : Stores :=
  { emptyStores with userStorage := [("u2", donorDora)] }

/-- C1: the spec claims every exposed operation is total and in
particular that `createCampaign` with non-empty name/description but an
unresolved `created_by` still returns one of the four tagged errors.  In
the code the guard `userOpt === null` never fires (an Azle `Opt` is an
object), and the subsequent `"Admin" in userOpt.Some.role` reads `.role`
of `undefined`, raising a `TypeError`: the call traps instead of
returning a tagged result. -/
theorem c1_createCampaign_not_total :
    (createCampaign emptyStores ⟨"a", "b", "u1"⟩ "c9" "n9" "t1").1 = .Trap ∧
    mapGet emptyStores.userStorage "u1" = none ∧
    ("a" : String) ≠ "" ∧ ("b" : String) ≠ "" := by
  decide

/-- C2: the spec claims `createExpense` (Admin caller, valid payload,
missing campaign) returns `NotFound` and inserts nothing, likewise
`createVoterOutreach`.  In the code both guards read `if (!campaign)` on
the always-truthy Azle `Opt`, so the `NotFound` branch is unreachable:
both calls return `Ok` and insert a record referencing the non-existent
campaign "cX". -/
theorem c2_missing_campaign_guard_unreachable :
    mapGet sampleStores.campaignStorage "cX" = none ∧
    (createExpense sampleStores ⟨"cX", "supplies", 5⟩ ⟨"alice", .Admin⟩ "e9" "n9" "t1").1 =
      .Ok ⟨"e9", "cX", "supplies", 5, "t1"⟩ ∧
    mapGet (createExpense sampleStores ⟨"cX", "supplies", 5⟩ ⟨"alice", .Admin⟩
        "e9" "n9" "t1").2.expenseStorage "e9" = some ⟨"e9", "cX", "supplies", 5, "t1"⟩ ∧
    (createVoterOutreach sampleStores ⟨"cX", "canvass", "2024-01-01", "planned"⟩
        ⟨"dora", .Donor⟩ "o9" "n8" "t1").1 =
      .Ok ⟨"o9", "cX", "canvass", "2024-01-01", "planned", "t1"⟩ ∧
    mapGet (createVoterOutreach sampleStores ⟨"cX", "canvass", "2024-01-01", "planned"⟩
        ⟨"dora", .Donor⟩ "o9" "n8" "t1").2.outreachStorage "o9" =
      some ⟨"o9", "cX", "canvass", "2024-01-01", "planned", "t1"⟩ := by
  decide

/-- C3: the spec claims `getUsersByRole` matches the exact role tag for
Admin/CampaignManager queries and that a Donor query returns `NotFound`
in every state.  In the code the filter tests `role.Admin !== null`,
which is false when the Admin tag is present (the field holds `null`)
and true when it is absent (`undefined`): on a store holding a single
Donor user, a Donor query returns `Ok` with that user, and an Admin
query returns the Donor user as well. -/
theorem c3_role_filter_inverted :
    getUsersByRole donorOnlyStores .Donor = .Ok [donorDora] ∧
    getUsersByRole donorOnlyStores .Admin = .Ok [donorDora] ∧
    getUsersByRole donorOnlyStores .CampaignManager = .Ok [donorDora] := by
  decide

/-- C4: atomicity on failure — for each of the seven write operations,
whenever the call returns one of the four tagged errors, the whole store
state (all seven maps, the notification map included) is returned
exactly as it was before the call. -/
theorem c4_error_leaves_stores_unchanged (st : Stores) :
    (∀ p caller newId now e,
      (createUser st p caller newId now).1 = .Err e →
      (createUser st p caller newId now).2 = st) ∧
    (∀ p newId notifId now e,
      (createCampaign st p newId notifId now).1 = .Err e →
      (createCampaign st p newId notifId now).2 = st) ∧
    (∀ cid p notifId now e,
      (updateCampaign st cid p notifId now).1 = .Err e →
      (updateCampaign st cid p notifId now).2 = st) ∧
    (∀ p up newId notifId now e,
      (createDonation st p up newId notifId now).1 = .Err e →
      (createDonation st p up newId notifId now).2 = st) ∧
    (∀ p up newId notifId now e,
      (createExpense st p up newId notifId now).1 = .Err e →
      (createExpense st p up newId notifId now).2 = st) ∧
    (∀ p up newId notifId now e,
      (createVoterOutreach st p up newId notifId now).1 = .Err e →
      (createVoterOutreach st p up newId notifId now).2 = st) ∧
    (∀ p up newId notifId now e,
      (createMessage st p up newId notifId now).1 = .Err e →
      (createMessage st p up newId notifId now).2 = st) := by
  refine ⟨?_, ?_, ?_, ?_, ?_, ?_, ?_⟩
  · intro p caller newId now e h
    simp only [createUser] at h ⊢
    repeat' split at h
    all_goals simp_all [jsVariantFalsy]
  · intro p newId notifId now e h
    simp only [createCampaign] at h ⊢
    repeat' split at h
    all_goals simp_all [optIsJsNull]
  · intro cid p notifId now e h
    simp only [updateCampaign] at h ⊢
    repeat' split at h
    all_goals simp_all
  · intro p up newId notifId now e h
    simp only [createDonation] at h ⊢
    repeat' split at h
    all_goals simp_all
  · intro p up newId notifId now e h
    simp only [createExpense] at h ⊢
    repeat' split at h
    all_goals simp_all [optIsJsFalsy]
  · intro p up newId notifId now e h
    simp only [createVoterOutreach] at h ⊢
    repeat' split at h
    all_goals simp_all [optIsJsFalsy]
  · intro p up newId notifId now e h
    simp only [createMessage] at h ⊢
    repeat' split at h
    all_goals simp_all

/-- Witness for C4: the atomicity theorem applied at concrete
error-returning calls of each of the seven write operations. -/
theorem c4_error_leaves_stores_unchanged_witness :
    (createUser sampleStores ⟨"alice", .Donor⟩ "p9" "u9" "t1").2 = sampleStores ∧
    (createCampaign sampleStores ⟨"", "d", "u1"⟩ "c9" "n9" "t1").2 = sampleStores ∧
    (updateCampaign sampleStores "cX" ⟨"n", "d", "u1"⟩ "n9" "t1").2 = sampleStores ∧
    (createDonation sampleStores ⟨"c1", "Bob", 5⟩ ⟨"ghost", .Donor⟩ "d9" "n9" "t1").2 =
      sampleStores ∧
    (createExpense sampleStores ⟨"c1", "supplies", 5⟩ ⟨"ghost", .Admin⟩ "e9" "n9" "t1").2 =
      sampleStores ∧
    (createVoterOutreach sampleStores ⟨"c1", "canvass", "2024-01-01", "planned"⟩
        ⟨"ghost", .Donor⟩ "o9" "n9" "t1").2 = sampleStores ∧
    (createMessage sampleStores ⟨"c1", "u2", "hello"⟩ ⟨"ghost", .Donor⟩ "m9" "n9" "t1").2 =
      sampleStores := by
  refine ⟨?_, ?_, ?_, ?_, ?_, ?_, ?_⟩
  · exact (c4_error_leaves_stores_unchanged sampleStores).1 ⟨"alice", .Donor⟩ "p9" "u9" "t1"
      (.ValidationError "Username already exists 😲 🤯 😮 😱 😳 ✨, try another one") (by decide)
  · exact (c4_error_leaves_stores_unchanged sampleStores).2.1 ⟨"", "d", "u1"⟩ "c9" "n9" "t1"
      (.InvalidPayload "Ensure 'name' and 'description' are provided") (by decide)
  · exact (c4_error_leaves_stores_unchanged sampleStores).2.2.1 "cX" ⟨"n", "d", "u1"⟩ "n9" "t1"
      (.NotFound "Campaign with ID cX not found") (by decide)
  · exact (c4_error_leaves_stores_unchanged sampleStores).2.2.2.1 ⟨"c1", "Bob", 5⟩
      ⟨"ghost", .Donor⟩ "d9" "n9" "t1" (.Unauthorized "User not found") (by decide)
  · exact (c4_error_leaves_stores_unchanged sampleStores).2.2.2.2.1 ⟨"c1", "supplies", 5⟩
      ⟨"ghost", .Admin⟩ "e9" "n9" "t1" (.Unauthorized "User not found") (by decide)
  · exact (c4_error_leaves_stores_unchanged sampleStores).2.2.2.2.2.1
      ⟨"c1", "canvass", "2024-01-01", "planned"⟩ ⟨"ghost", .Donor⟩ "o9" "n9" "t1"
      (.Unauthorized "Invalid credentials") (by decide)
  · exact (c4_error_leaves_stores_unchanged sampleStores).2.2.2.2.2.2
      ⟨"c1", "u2", "hello"⟩ ⟨"ghost", .Donor⟩ "m9" "n9" "t1"
      (.Unauthorized "Invalid credentials") (by decide)

/-- C5 counterexample: on the concrete state `sampleStores`, campaign
"c1" exists, the payload has non-empty name/description, and
`created_by = "ghost"` resolves to no stored user; `updateCampaign`
returns the `NotFound` tag, not `Unauthorized` as the claim states. -/
theorem c5_unresolved_creator_counterexample :
    mapGet sampleStores.campaignStorage "c1" = some campaignC1 ∧
    mapGet sampleStores.userStorage "ghost" = none ∧
    (updateCampaign sampleStores "c1" ⟨"n", "d", "ghost"⟩ "n9" "t1").1 =
      .Err (.NotFound "User with ID ghost not found") ∧
    isUnauthorizedResult
      (updateCampaign sampleStores "c1" ⟨"n", "d", "ghost"⟩ "n9" "t1").1 = false := by
  decide

/-- C5 (amended): for every `updateCampaign` call on an existing
campaign with non-empty name and description whose `created_by` resolves
to no stored user, the operation fails with the `NotFound` tag; and
`createCampaign` on such a payload does not return `Unauthorized`
either — it traps before producing any tagged error. -/
theorem c5_unresolved_creator_not_found (st : Stores) (cid newId : String)
    (p : CampaignPayload) (notifId now : String) (c0 : Campaign)
    (hc : mapGet st.campaignStorage cid = some c0)
    (hn : p.name ≠ "") (hd : p.description ≠ "")
    (hu : mapGet st.userStorage p.created_by = none) :
    (updateCampaign st cid p notifId now).1 =
      .Err (.NotFound ("User with ID " ++ p.created_by ++ " not found")) ∧
    (createCampaign st p newId notifId now).1 = .Trap := by
  constructor
  · simp [updateCampaign, hc, hn, hd, hu]
  · simp [createCampaign, optIsJsNull, hn, hd, hu]

/-- Witness for C5 (amended) at the concrete state `sampleStores`. -/
theorem c5_unresolved_creator_not_found_witness :
    (updateCampaign sampleStores "c1" ⟨"n", "d", "ghost"⟩ "n9" "t1").1 =
      .Err (.NotFound "User with ID ghost not found") ∧
    (createCampaign sampleStores ⟨"n", "d", "ghost"⟩ "c9" "n9" "t1").1 = .Trap :=
  c5_unresolved_creator_not_found sampleStores "c1" "c9" ⟨"n", "d", "ghost"⟩ "n9" "t1"
    campaignC1 (by decide) (by decide) (by decide) (by decide)

/-- C6: for every payload with non-empty name and description whose
`created_by` resolves to a stored Admin or CampaignManager user,
`createCampaign` returns `Ok` with a record whose `created_at` equals
its `updated_at`, and `getCampaignById` on the generated id against the
post-state returns that same record. -/
theorem c6_createCampaign_success_retrievable (st : Stores) (p : CampaignPayload)
    (newId notifId now : String) (u : User)
    (hn : p.name ≠ "") (hd : p.description ≠ "")
    (hu : mapGet st.userStorage p.created_by = some u)
    (hrole : u.role = .Admin ∨ u.role = .CampaignManager) :
    ∃ c : Campaign,
      (createCampaign st p newId notifId now).1 = .Ok c ∧
      c.created_at = c.updated_at ∧
      getCampaignById (createCampaign st p newId notifId now).2 newId = .Ok c := by
  have hrole' : (roleHasAdminKey u.role || roleHasCampaignManagerKey u.role) = true := by
    rcases hrole with h | h <;>
      simp [h, roleHasAdminKey, roleHasCampaignManagerKey]
  refine ⟨⟨newId, p.name, p.description, p.created_by, now, now⟩, ?_, rfl, ?_⟩
  · simp [createCampaign, optIsJsNull, hn, hd, hu, hrole']
  · simp [createCampaign, optIsJsNull, hn, hd, hu, hrole', getCampaignById,
      notifyParticipants, mapGet_mapInsert_self]

/-- Witness for C6: a CampaignManager-authored campaign on
`sampleStores`. -/
theorem c6_createCampaign_success_retrievable_witness :
    ∃ c : Campaign,
      (createCampaign sampleStores ⟨"Primary 2024", "town halls", "u3"⟩ "c9" "n9" "t1").1 =
        .Ok c ∧
      c.created_at = c.updated_at ∧
      getCampaignById
        (createCampaign sampleStores ⟨"Primary 2024", "town halls", "u3"⟩ "c9" "n9" "t1").2
        "c9" = .Ok c :=
  c6_createCampaign_success_retrievable sampleStores ⟨"Primary 2024", "town halls", "u3"⟩
    "c9" "n9" "t1" managerMia (by decide) (by decide) (by decide) (Or.inr rfl)

/-- C7: in a state with an existing campaign, a caller resolving to a
Donor user and a non-empty donor name, `createDonation` with amount 0
returns `InvalidPayload`, while `createDonation` with amount 1 returns
`Ok` and raises the number of notifications attached to that campaign by
exactly one (the generated notification id being fresh). -/
theorem c7_donation_zero_invalid_one_notifies (st : Stores) (cid donorName : String)
    (c : Campaign) (u : User) (up : UserPayload) (newId notifId now : String)
    (hc : mapGet st.campaignStorage cid = some c)
    (hu : (mapValues st.userStorage).find? (fun x => x.username == up.username) = some u)
    (hrole : u.role = .Donor)
    (hname : donorName ≠ "")
    (hfresh : mapGet st.notificationStorage notifId = none) :
    (createDonation st ⟨cid, donorName, 0⟩ up newId notifId now).1 =
      .Err (.InvalidPayload "Ensure donor name and valid amount are provided") ∧
    (∃ d, (createDonation st ⟨cid, donorName, 1⟩ up newId notifId now).1 = .Ok d) ∧
    notificationCountFor (createDonation st ⟨cid, donorName, 1⟩ up newId notifId now).2 cid =
      notificationCountFor st cid + 1 := by
  refine ⟨?_, ?_, ?_⟩
  · simp [createDonation, hu, hrole, roleHasDonorKey]
  · exact ⟨⟨newId, cid, donorName, 1, now⟩,
      by simp [createDonation, hu, hrole, roleHasDonorKey, hname, hc]⟩
  · have key : (createDonation st ⟨cid, donorName, 1⟩ up newId notifId now).2.notificationStorage
        = mapInsert st.notificationStorage notifId ⟨notifId, cid, "New donation received.", now⟩ := by
      simp [createDonation, hu, hrole, roleHasDonorKey, hname, hc, notifyParticipants]
    rw [notificationCountFor, notificationCountFor, key,
      mapValues_mapInsert_of_none _ _ _ hfresh, List.filter_append]
    simp

/-- Witness for C7 on `sampleStores` with the Donor caller "dora". -/
theorem c7_donation_zero_invalid_one_notifies_witness :
    (createDonation sampleStores ⟨"c1", "Bob", 0⟩ ⟨"dora", .Donor⟩ "d9" "n9" "t1").1 =
      .Err (.InvalidPayload "Ensure donor name and valid amount are provided") ∧
    (∃ d, (createDonation sampleStores ⟨"c1", "Bob", 1⟩ ⟨"dora", .Donor⟩ "d9" "n9" "t1").1 =
      .Ok d) ∧
    notificationCountFor
      (createDonation sampleStores ⟨"c1", "Bob", 1⟩ ⟨"dora", .Donor⟩ "d9" "n9" "t1").2 "c1" =
      notificationCountFor sampleStores "c1" + 1 :=
  c7_donation_zero_invalid_one_notifies sampleStores "c1" "Bob" campaignC1 donorDora
    ⟨"dora", .Donor⟩ "d9" "n9" "t1" (by decide) (by decide) rfl (by decide) (by decide)

/-- C8: `createUser` validates only role presence and username
uniqueness.  When no stored user carries the payload's username (the
empty string included), the call returns `Ok` and stores the user with
`points = 0`; the store then holds exactly one record with that
username.  A second call with the same username returns
`ValidationError` and leaves the whole state unchanged, so it still
holds exactly one such record. -/
theorem c8_createUser_username_uniqueness (st : Stores) (p p2 : UserPayload)
    (caller caller2 newId newId2 now now2 : String)
    (hnone : (mapValues st.userStorage).find? (fun u => u.username == p.username) = none)
    (hfresh : mapGet st.userStorage newId = none)
    (hsame : p2.username = p.username) :
    (∃ u : User, (createUser st p caller newId now).1 = .Ok u ∧
      u.points = 0 ∧ u.username = p.username) ∧
    usernameCount (createUser st p caller newId now).2 p.username = 1 ∧
    (∃ msg, (createUser (createUser st p caller newId now).2 p2 caller2 newId2 now2).1 =
      .Err (.ValidationError msg)) ∧
    (createUser (createUser st p caller newId now).2 p2 caller2 newId2 now2).2 =
      (createUser st p caller newId now).2 := by
  have hrun : createUser st p caller newId now =
      (.Ok ⟨newId, caller, p.username, p.role, 0, now⟩,
        { st with
            userStorage :=
              mapInsert st.userStorage newId ⟨newId, caller, p.username, p.role, 0, now⟩ }) := by
    simp [createUser, jsVariantFalsy, hnone]
  have hvals : mapValues (mapInsert st.userStorage newId
      (⟨newId, caller, p.username, p.role, 0, now⟩ : User)) =
      mapValues st.userStorage ++ [⟨newId, caller, p.username, p.role, 0, now⟩] :=
    mapValues_mapInsert_of_none _ _ _ hfresh
  have hfind : (mapValues (mapInsert st.userStorage newId
      (⟨newId, caller, p.username, p.role, 0, now⟩ : User))).find?
      (fun x => x.username == p2.username) =
      some ⟨newId, caller, p.username, p.role, 0, now⟩ := by
    rw [hvals, hsame]
    exact find?_append_singleton _ _ _ hnone (by simp)
  refine ⟨⟨⟨newId, caller, p.username, p.role, 0, now⟩, by rw [hrun], rfl, rfl⟩, ?_, ?_, ?_⟩
  · rw [hrun]
    simp [usernameCount, hvals, List.filter_append,
      filter_eq_nil_of_find?_eq_none _ _ hnone]
  · rw [hrun]
    exact ⟨"Username already exists 😲 🤯 😮 😱 😳 ✨, try another one",
      by simp [createUser, jsVariantFalsy, hfind]⟩
  · rw [hrun]
    simp [createUser, jsVariantFalsy, hfind]

/-- Witness for C8: creating username "zoe" twice on `sampleStores`. -/
theorem c8_createUser_username_uniqueness_witness :
    (∃ u : User, (createUser sampleStores ⟨"zoe", .Donor⟩ "p9" "u9" "t1").1 = .Ok u ∧
      u.points = 0 ∧ u.username = "zoe") ∧
    usernameCount (createUser sampleStores ⟨"zoe", .Donor⟩ "p9" "u9" "t1").2 "zoe" = 1 ∧
    (∃ msg, (createUser (createUser sampleStores ⟨"zoe", .Donor⟩ "p9" "u9" "t1").2
        ⟨"zoe", .Admin⟩ "p8" "u8" "t2").1 = .Err (.ValidationError msg)) ∧
    (createUser (createUser sampleStores ⟨"zoe", .Donor⟩ "p9" "u9" "t1").2
        ⟨"zoe", .Admin⟩ "p8" "u8" "t2").2 =
      (createUser sampleStores ⟨"zoe", .Donor⟩ "p9" "u9" "t1").2 :=
  c8_createUser_username_uniqueness sampleStores ⟨"zoe", .Donor⟩ ⟨"zoe", .Admin⟩
    "p9" "p8" "u9" "u8" "t1" "t2" (by decide) (by decide) rfl

/-- C9: for every successful `updateCampaign(id, payload)` the stored
campaign under that id keeps its original `id` and `created_at`, its
`name`, `description` and `created_by` are replaced by the payload's
values, `updated_at` is set to the current time, and every other
campaign key maps exactly as before. -/
theorem c9_updateCampaign_frame (st : Stores) (cid : String) (p : CampaignPayload)
    (notifId now : String) (c0 c : Campaign) (st2 : Stores)
    (h0 : mapGet st.campaignStorage cid = some c0)
    (hok : updateCampaign st cid p notifId now = (.Ok c, st2)) :
    c.id = c0.id ∧ c.created_at = c0.created_at ∧ c.name = p.name ∧
    c.description = p.description ∧ c.created_by = p.created_by ∧ c.updated_at = now ∧
    mapGet st2.campaignStorage cid = some c ∧
    (∀ k, k ≠ cid → mapGet st2.campaignStorage k = mapGet st.campaignStorage k) := by
  simp only [updateCampaign, h0] at hok
  by_cases hcond : (p.name == "" || p.description == "") = true
  · rw [if_pos hcond] at hok
    simp at hok
  · rw [if_neg hcond] at hok
    cases hu : mapGet st.userStorage p.created_by with
    | none =>
      simp only [hu] at hok
      simp at hok
    | some user =>
      simp only [hu] at hok
      by_cases hrole : (!(roleHasAdminKey user.role || roleHasCampaignManagerKey user.role)) = true
      · rw [if_pos hrole] at hok
        simp at hok
      · rw [if_neg hrole] at hok
        injection hok with h1 h2
        injection h1 with h1
        subst h1
        subst h2
        refine ⟨rfl, rfl, rfl, rfl, rfl, rfl, ?_, ?_⟩
        · simp [notifyParticipants, mapGet_mapInsert_self]
        · intro k hk
          simp [notifyParticipants, mapGet_mapInsert_ne _ _ _ _ hk]

/-- Witness for C9: renaming campaign "c1" on `sampleStores` with
Admin author "u1"; the record keeps id/created_at, takes the payload
fields and the new time, and the unrelated key "cX" is unaffected. -/
theorem c9_updateCampaign_frame_witness :
    (updateCampaign sampleStores "c1" ⟨"Renamed", "new desc", "u1"⟩ "n9" "t2").1 =
      .Ok ⟨"c1", "Renamed", "new desc", "u1", "t0", "t2"⟩ ∧
    ("c1" : String) = campaignC1.id ∧ ("t0" : String) = campaignC1.created_at ∧
    mapGet (updateCampaign sampleStores "c1"
        ⟨"Renamed", "new desc", "u1"⟩ "n9" "t2").2.campaignStorage "c1" =
      some ⟨"c1", "Renamed", "new desc", "u1", "t0", "t2"⟩ ∧
    mapGet (updateCampaign sampleStores "c1"
        ⟨"Renamed", "new desc", "u1"⟩ "n9" "t2").2.campaignStorage "cX" =
      mapGet sampleStores.campaignStorage "cX" := by
  have hok : updateCampaign sampleStores "c1" ⟨"Renamed", "new desc", "u1"⟩ "n9" "t2" =
      ((updateCampaign sampleStores "c1" ⟨"Renamed", "new desc", "u1"⟩ "n9" "t2").1,
        (updateCampaign sampleStores "c1" ⟨"Renamed", "new desc", "u1"⟩ "n9" "t2").2) := rfl
  have hres : updateCampaign sampleStores "c1" ⟨"Renamed", "new desc", "u1"⟩ "n9" "t2" =
      (.Ok ⟨"c1", "Renamed", "new desc", "u1", "t0", "t2"⟩,
        (updateCampaign sampleStores "c1" ⟨"Renamed", "new desc", "u1"⟩ "n9" "t2").2) := by
    decide
  have h := c9_updateCampaign_frame sampleStores "c1" ⟨"Renamed", "new desc", "u1"⟩
    "n9" "t2" campaignC1 ⟨"c1", "Renamed", "new desc", "u1", "t0", "t2"⟩
    (updateCampaign sampleStores "c1" ⟨"Renamed", "new desc", "u1"⟩ "n9" "t2").2
    (by decide) hres
  exact ⟨by rw [hres], rfl, rfl, h.2.2.2.2.2.2.1, h.2.2.2.2.2.2.2 "cX" (by decide)⟩

/-- C10 (implicit): `createMessage` never compares the payload's
`sender` with the authenticated caller.  In every state holding an
existing campaign and two distinct stored users A and B, a call whose
caller username resolves to A with non-empty content and
`payload.sender` equal to B's user id returns `Ok` and stores a message
whose `sender` field is B's id. -/
theorem c10_createMessage_sender_unchecked (st : Stores) (p : MessagePayload)
    (up : UserPayload) (ua ub : User) (newId notifId now : String) (c : Campaign)
    (hcaller : (mapValues st.userStorage).find? (fun x => x.username == up.username) = some ua)
    (hb : mapGet st.userStorage p.sender = some ub)
    (hdistinct : ua ≠ ub)
    (hbid : p.sender = ub.id)
    (hsender : p.sender ≠ "")
    (hcontent : p.content ≠ "")
    (hcamp : mapGet st.campaignStorage p.campaign_id = some c) :
    ∃ m : SecureMessage,
      (createMessage st p up newId notifId now).1 = .Ok m ∧
      m.sender = ub.id ∧
      mapGet (createMessage st p up newId notifId now).2.messageStorage newId = some m := by
  refine ⟨⟨newId, p.campaign_id, p.sender, p.content, now⟩, ?_, hbid, ?_⟩
  · simp [createMessage, hcaller, hsender, hcontent, hb, hcamp]
  · simp [createMessage, hcaller, hsender, hcontent, hb, hcamp, notifyParticipants,
      mapGet_mapInsert_self]

/-- Witness for C10: caller "alice" (user u1) sends a message naming
Donor user u2 as sender; the stored message's sender is u2. -/
theorem c10_createMessage_sender_unchecked_witness :
    ∃ m : SecureMessage,
      (createMessage sampleStores ⟨"c1", "u2", "hello"⟩ ⟨"alice", .Admin⟩
        "m9" "n9" "t1").1 = .Ok m ∧
      m.sender = donorDora.id ∧
      mapGet (createMessage sampleStores ⟨"c1", "u2", "hello"⟩ ⟨"alice", .Admin⟩
        "m9" "n9" "t1").2.messageStorage "m9" = some m :=
  c10_createMessage_sender_unchecked sampleStores ⟨"c1", "u2", "hello"⟩ ⟨"alice", .Admin⟩
    adminAlice donorDora "m9" "n9" "t1" campaignC1 (by decide) (by decide) (by decide)
    (by decide) (by decide) (by decide) (by decide)
